/-
Verification of the quantitative risk-and-suitability engine of the
investment research platform (backend/agents/risk_agent.py,
base_agent.py, compliance_agent.py).

Numbers are modelled as exact rationals (Python floats), integers as ℤ.
Python dict `.get(key, default)` access is modelled with `Option` fields
plus `Option.getD` at each use site, mirroring the source defaults.
Python `round(x, n)` (banker's rounding) is modelled by `pyRound`;
`int(x)` truncation toward zero by `pyTrunc`.  Fallible code paths
(ZeroDivisionError, TypeError, KeyError caught by the pervasive
`try/except` blocks of the source) are modelled with `Option`/`Except`.
Free-text fields produced by the external LLM service are out of the
engine's scope (spec section 1/6) and are not modelled; message strings
that carry interpolated numbers are modelled as tagged values.
-/
import Mathlib

/-- Python `round` to an integer: round half to even (banker's rounding). -/
def pyRoundInt (q : ℚ) : ℤ :=
  if q - ⌊q⌋ < 1/2 then ⌊q⌋
  else if (1/2 : ℚ) < q - ⌊q⌋ then ⌊q⌋ + 1
  else if ⌊q⌋ % 2 = 0 then ⌊q⌋ else ⌊q⌋ + 1

/-- Python `round(x, d)` for rationals. -/
def pyRound (d : ℕ) (q : ℚ) : ℚ :=
  (pyRoundInt (q * 10 ^ d) : ℚ) / 10 ^ d

/-- Python `int(x)`: truncation toward zero. -/
def pyTrunc (q : ℚ) : ℤ :=
  if 0 ≤ q then ⌊q⌋ else -⌊-q⌋

lemma pyRoundInt_le_floor_add_one (q : ℚ) : pyRoundInt q ≤ ⌊q⌋ + 1 := by
  unfold pyRoundInt; split_ifs <;> omega

lemma floor_le_pyRoundInt (q : ℚ) : ⌊q⌋ ≤ pyRoundInt q := by
  unfold pyRoundInt; split_ifs <;> omega

lemma pyRoundInt_mono {x y : ℚ} (h : x ≤ y) : pyRoundInt x ≤ pyRoundInt y := by
  have hf : ⌊x⌋ ≤ ⌊y⌋ := Int.floor_le_floor h
  rcases lt_or_eq_of_le hf with hlt | heq
  · have h1 := pyRoundInt_le_floor_add_one x
    have h2 := floor_le_pyRoundInt y
    omega
  · have hq : ((⌊x⌋ : ℚ)) = ((⌊y⌋ : ℚ)) := by exact_mod_cast heq
    unfold pyRoundInt
    split_ifs with a1 a2 a3 b1 b2 b3 <;> try omega
    all_goals linarith

lemma pyRound_mono (d : ℕ) {x y : ℚ} (h : x ≤ y) : pyRound d x ≤ pyRound d y := by
  unfold pyRound
  have hpow : (0 : ℚ) < 10 ^ d := by positivity
  have hm : x * 10 ^ d ≤ y * 10 ^ d := by
    exact mul_le_mul_of_nonneg_right h (le_of_lt hpow)
  have hr : pyRoundInt (x * 10 ^ d) ≤ pyRoundInt (y * 10 ^ d) := pyRoundInt_mono hm
  have hc : ((pyRoundInt (x * 10 ^ d) : ℚ)) ≤ ((pyRoundInt (y * 10 ^ d) : ℚ)) := by
    exact_mod_cast hr
  exact div_le_div_of_nonneg_right hc hpow.le

/-- Does the first list start with the second? (helper for Python `in`). -/
def seqStartsWith : List Char → List Char → Bool
  | _, [] => true
  | [], _ :: _ => false
  | a :: as, b :: bs => (a == b) && seqStartsWith as bs

/-- Python substring containment `pat in s` on character lists. -/
def seqContains (pat : List Char) : List Char → Bool
  | [] => pat.isEmpty
  | c :: rest => seqStartsWith (c :: rest) pat || seqContains pat rest

/-- Python `str.lower()` (ASCII). -/
def lowerStr (s : String) : String := String.mk (s.data.map Char.toLower)

/-- Python `str.upper()` (ASCII). -/
def upperStr (s : String) : String := String.mk (s.data.map Char.toUpper)

/-- Python `needle in haystack` for strings. -/
def strContains (haystack needle : String) : Bool :=
  seqContains needle.data haystack.data


/-! ## Data model

A stock-data record as supplied by the financial data store.  Numeric
fields are `Option ℚ` (`none` = key absent) and each read site applies
the same default the Python `dict.get` call uses. -/

structure StockData where
  beta : Option ℚ := none
  debt_to_equity : Option ℚ := none
  latest_price : Option ℚ := none
  market_cap : Option ℚ := none
  pe_ratio : Option ℚ := none
  price_to_book : Option ℚ := none
  profit_margin : Option ℚ := none
  roe : Option ℚ := none
  latest_volume : Option ℚ := none
  sector : Option String := none
  deriving DecidableEq

/-! ## RiskAssessmentAgent._calculate_volatility_indicator -/

/-- Source `sector_multipliers` dict of `_calculate_volatility_indicator`,
in Python insertion order (first substring match wins). -/
def sectorMultipliers : List (String × ℚ) :=
  [("technology", 13/10), ("energy", 14/10), ("financial", 12/10),
   ("healthcare", 9/10), ("utilities", 7/10), ("consumer staples", 8/10)]

/-- First multiplier whose key occurs as a substring of the (lowercased)
sector name; `1.0` when none matches. -/
def findSectorMultiplier (sector : String) : ℚ :=
  match sectorMultipliers.find? (fun kv => strContains sector kv.1) with
  | some kv => kv.2
  | none => 1

/-- Source `_calculate_volatility_indicator`: `round(beta * multiplier, 2)`. -/
def calcVolatilityIndicator (sd : StockData) : ℚ :=
  let beta := sd.beta.getD 1
  let sector := lowerStr (sd.sector.getD "")
  pyRound 2 (beta * findSectorMultiplier sector)

/-! ## Per-instrument qualitative tiers (`_assess_liquidity_risk`,
`_assess_valuation_risk`, `_assess_profitability_stability`).
Python truthiness of a number (`if pe_ratio and ...`) is `x ≠ 0`. -/

def assessLiquidityRisk (sd : StockData) : String :=
  let market_cap := sd.market_cap.getD 0
  if market_cap > 10000000000 then "Low"
  else if market_cap > 2000000000 then "Moderate"
  else "High"

def assessValuationRisk (sd : StockData) : String :=
  let pe := sd.pe_ratio.getD 0
  let pb := sd.price_to_book.getD 0
  if pe ≠ 0 ∧ pe > 30 then "High"
  else if pb ≠ 0 ∧ pb > 5 then "High"
  else if pe ≠ 0 ∧ pe < 15 then "Low"
  else "Moderate"

def assessProfitabilityStability (sd : StockData) : String :=
  let margin := sd.profit_margin.getD 0
  let roe := sd.roe.getD 0
  if margin ≠ 0 ∧ margin > 15/100 ∧ roe ≠ 0 ∧ roe > 15/100 then "Stable"
  else if margin ≠ 0 ∧ margin > 5/100 then "Moderate"
  else "Unstable"

/-- Output of `_calculate_quantitative_risks`. -/
structure QuantMetrics where
  beta : ℚ
  volatility_indicator : ℚ
  financial_leverage : ℚ
  liquidity_risk : String
  valuation_risk : String
  profitability_stability : String
  deriving DecidableEq

def calcQuantitativeRisks (sd : StockData) : QuantMetrics :=
  { beta := sd.beta.getD 1
    volatility_indicator := calcVolatilityIndicator sd
    financial_leverage := sd.debt_to_equity.getD 0
    liquidity_risk := assessLiquidityRisk sd
    valuation_risk := assessValuationRisk sd
    profitability_stability := assessProfitabilityStability sd }

/-! ## `_assess_qualitative_risks` -/

/-- One qualitative risk-factor entry.  The error-path entry of the
source lacks the `severity`/`likelihood` keys, hence `Option`. -/
structure QualRisk where
  category : String
  description : String
  severity : Option String := none
  likelihood : Option String := none
  deriving DecidableEq

def defaultQualRisks : List QualRisk :=
  [{ category := "Market Risk",
     description := "Exposure to overall market volatility and economic cycles",
     severity := some "Medium", likelihood := some "High" },
   { category := "Sector Risk",
     description := "Risks specific to the industry sector of the company",
     severity := some "Medium", likelihood := some "Medium" },
   { category := "Company-Specific Risk",
     description := "Risks unique to the operations of the individual company",
     severity := some "Medium", likelihood := some "Medium" }]

def assessQualitativeRisks (research_risk_factors : List String) : List QualRisk :=
  ((research_risk_factors.map fun r =>
      { category := "Business Risk", description := r,
        severity := some "Medium", likelihood := some "Medium" : QualRisk })
    ++ defaultQualRisks).take 8

/-! ## `_calculate_overall_risk_score` (1-10 scale) -/

def calcOverallRiskScore (quantitative : QuantMetrics) (qualitative : List QualRisk) : ℤ :=
  let beta := quantitative.beta
  let betaAdj : ℚ :=
    if beta > 3/2 then 2 else if beta > 6/5 then 1 else if beta < 4/5 then -1 else 0
  let debt_to_equity := quantitative.financial_leverage
  let debtAdj : ℚ := if debt_to_equity > 1 then 1 else if debt_to_equity > 1/2 then 1/2 else 0
  let high_risk_count : ℕ :=
    (qualitative.filter fun r => lowerStr (r.severity.getD "") = "high").length
  let score : ℚ := 5 + betaAdj + debtAdj + high_risk_count * (1/2)
  max 1 (min 10 (pyTrunc score))

/-! ## `_determine_risk_level` -/

def determineRiskLevel (risk_score : ℤ) : String :=
  if risk_score ≤ 3 then "Low"
  else if risk_score ≤ 6 then "Moderate"
  else if risk_score ≤ 8 then "High"
  else "Very High"

/-! ## `_calculate_var_analysis`

The reported dict also divides by `current_price` for the percent
field, so a zero price raises ZeroDivisionError and the except-branch
returns an error dict: modelled as `none`.  The ten-day value
multiplies by the irrational `sqrt 10` and is modelled separately over
`ℝ`. -/

def var95_1day_raw (current_price volatility : ℚ) : ℚ :=
  current_price * (16/1000) * volatility * (165/100)

noncomputable def var95_10day_raw (current_price volatility : ℚ) : ℝ :=
  (var95_1day_raw current_price volatility : ℝ) * Real.sqrt 10

structure VarResult where
  var_95_1_day : ℚ
  var_95_1_day_percent : ℚ
  deriving DecidableEq

def calcVarAnalysis (current_price volatility : ℚ) : Option VarResult :=
  if current_price = 0 then none
  else
    let v := var95_1day_raw current_price volatility
    some { var_95_1_day := pyRound 2 v
           var_95_1_day_percent := pyRound 2 (v / current_price * 100) }


/-! ## FinancialBaseAgent._assess_investment_suitability

The `risk_score` value of the incoming dict may be malformed; a
non-numeric value raises TypeError at the `<=` comparison, which the
enclosing `except` turns into the fixed manual-review verdict.  Python
values that can sit under the key are modelled by `PyVal`. -/

inductive PyVal where
  | num (q : ℚ)
  | str (s : String)
  deriving DecidableEq

structure InvestmentData where
  risk_score : Option PyVal := none
  liquidity_risk : Bool := false
  complexity_high : Bool := false
  deriving DecidableEq

structure ClientProfile where
  risk_tolerance : Option String := none
  deriving DecidableEq

/-- Source `risk_tolerance_map` of `_assess_investment_suitability`. -/
def riskToleranceMap (tolerance : String) : Option ℚ :=
  if tolerance = "conservative" then some 3
  else if tolerance = "moderate" then some 5
  else if tolerance = "aggressive" then some 8
  else none

/-- The reasoning f-string, modelled as a tag carrying the interpolated
values (exact text formatting is irrelevant to every claim). -/
inductive SuitReasoning where
  | aligned (risk_score : ℚ) (tolerance : String)
  | exceeds (risk_score : ℚ) (tolerance : String)
  | insufficientData
  deriving DecidableEq

structure SuitVerdict where
  suitable : Bool
  suitability_score : Option ℚ := none
  reasoning : SuitReasoning
  warnings : List String := []
  client_risk_tolerance : Option String := none
  investment_risk_level : Option ℚ := none
  deriving DecidableEq

/-- The `try`-block body of `_assess_investment_suitability`.  The
comparison `risk_score <= client_risk_score + 1` is the first operation
that touches the value under `risk_score`; on a non-numeric value it
raises TypeError (the `.error` branch). -/
def assessSuitInner (inv : InvestmentData) (profile : ClientProfile) :
    Except String SuitVerdict :=
  let risk_score := inv.risk_score.getD (.num 5)
  let tolerance := profile.risk_tolerance.getD "moderate"
  let client_risk_score := (riskToleranceMap tolerance).getD 5
  match risk_score with
  | .str _ => .error "TypeError: not supported between str and number"
  | .num rs =>
    let suitable := decide (rs ≤ client_risk_score + 1)
    let reasoning := if suitable then SuitReasoning.aligned rs tolerance
                     else SuitReasoning.exceeds rs tolerance
    let warnings :=
      (if inv.liquidity_risk then ["This investment may have limited liquidity"] else [])
      ++ (if inv.complexity_high then ["This is a complex investment product"] else [])
    .ok { suitable := suitable
          suitability_score := some (min client_risk_score rs)
          reasoning := reasoning
          warnings := warnings
          client_risk_tolerance := some tolerance
          investment_risk_level := some rs }

/-- The `except`-branch verdict of `_assess_investment_suitability`. -/
def manualReviewVerdict : SuitVerdict :=
  { suitable := false
    reasoning := .insufficientData
    warnings := ["Suitability assessment failed - manual review required"] }

/-- Source `_assess_investment_suitability`: total (never raises past its
boundary); the `except` branch yields the manual-review verdict. -/
def assessInvestmentSuitability (inv : InvestmentData) (profile : ClientProfile) : SuitVerdict :=
  match assessSuitInner inv profile with
  | .ok v => v
  | .error _ => manualReviewVerdict

/-! ## ComplianceAgent: suitability tier rules and checks -/

structure TierRule where
  max_risk_score : ℚ
  max_volatility : ℚ
  min_liquidity : String
  deriving DecidableEq

/-- Source `compliance_rules['suitability']` (a missing tier is a KeyError). -/
def suitabilityRules (tier : String) : Option TierRule :=
  if tier = "conservative" then some { max_risk_score := 4, max_volatility := 12/10, min_liquidity := "High" }
  else if tier = "moderate" then some { max_risk_score := 7, max_volatility := 15/10, min_liquidity := "Moderate" }
  else if tier = "aggressive" then some { max_risk_score := 10, max_volatility := 2, min_liquidity := "Low" }
  else none

/-- The `risk_score_suitable` check of `_perform_suitability_checks`:
`investment_risk_score <= rules['max_risk_score']`, no slack.
`none` = the whole checks helper degraded to its error dict. -/
def performRiskScoreCheck (tier : String) (risk_score : Option ℚ) : Option Bool :=
  (suitabilityRules tier).map fun rules => decide (risk_score.getD 5 ≤ rules.max_risk_score)

/-! ## ComplianceAgent._verify_documentation_requirements and
_determine_overall_suitability -/

/-- A value of the suitability/concentration checks dict: either a dict
carrying a `passed` key (possibly absent), or a non-dict value (the
`error` string of a degraded helper). -/
inductive CheckVal where
  | check (passed : Option Bool)
  | nonDict
  deriving DecidableEq

/-- Source `check.get('passed', False) if isinstance(check, dict) else True`. -/
def checkPassed : CheckVal → Bool
  | .check p => p.getD false
  | .nonDict => true

structure DocCheckResult where
  all_required_present : Bool
  missing_documents : List String
  deriving DecidableEq

/-- Source `_verify_documentation_requirements`.  Inputs are the Python
truthiness of `investment_data['recommendation']['rationale']` and of
`risk_assessment['risk_score']`; the `suitability_analysis` entry is
hard-coded present and `client_acknowledgment` hard-coded absent. -/
def verifyDocumentationRequirements (has_rationale has_risk_score : Bool) : DocCheckResult :=
  let statuses : List (String × Bool) :=
    [("investment_rationale", has_rationale),
     ("risk_assessment", has_risk_score),
     ("suitability_analysis", true),
     ("client_acknowledgment", false)]
  { all_required_present := statuses.all (fun st => st.2)
    missing_documents := (statuses.filter (fun st => !st.2)).map (fun st => st.1) }

/-- Source `_determine_overall_suitability`: documentation completeness is
computed but does not enter the returned conjunction. -/
def determineOverallSuitability (suitability_checks concentration_analysis : List CheckVal)
    (documentation_check : DocCheckResult) : Bool :=
  let suitability_passed := suitability_checks.all checkPassed
  let concentration_passed := concentration_analysis.all checkPassed
  let _documentation_passed := documentation_check.all_required_present
  suitability_passed && concentration_passed


/-! ## Portfolio data model -/

/-- A holding dict; every read site applies the `dict.get` default of
the source (`value` 0, `sector` Unknown, `beta` 1.0, `pe_ratio` 20,
`debt_to_equity` 0.5). -/
structure Holding where
  value : Option ℚ := none
  sector : Option String := none
  beta : Option ℚ := none
  pe_ratio : Option ℚ := none
  debt_to_equity : Option ℚ := none
  deriving DecidableEq

def totalValue (holdings : List Holding) : ℚ :=
  (holdings.map fun h => h.value.getD 0).sum

/-- Source `FinancialBaseAgent._calculate_portfolio_beta`. -/
def calcPortfolioBeta (holdings : List Holding) : ℚ :=
  if holdings.isEmpty then 1
  else
    let tv := totalValue holdings
    if tv = 0 then 1
    else
      let weighted_beta :=
        holdings.foldl (fun acc h => acc + h.value.getD 0 / tv * h.beta.getD 1) 0
      pyRound 3 weighted_beta

/-! ## `_calculate_portfolio_risk_metrics`

A zero total value raises ValueError, caught by the helper's own
`except`, which degrades to an error dict: modelled as `none`. -/

structure PortfolioMetrics where
  portfolio_beta : ℚ
  weighted_pe : ℚ
  weighted_debt_equity : ℚ
  concentration : ℚ
  number_of_positions : ℕ
  average_position_size : ℚ
  risk_concentration : String
  deriving DecidableEq

def calcPortfolioRiskMetrics (holdings : List Holding) : Option PortfolioMetrics :=
  match holdings with
  | [] => none
  | h :: t =>
    let tv := totalValue (h :: t)
    if tv = 0 then none
    else
      let weighted_beta := (h :: t).foldl (fun acc x => acc + x.value.getD 0 / tv * x.beta.getD 1) 0
      let weighted_pe := (h :: t).foldl (fun acc x => acc + x.value.getD 0 / tv * x.pe_ratio.getD 20) 0
      let weighted_de := (h :: t).foldl (fun acc x => acc + x.value.getD 0 / tv * x.debt_to_equity.getD (1/2)) 0
      let largest_position := t.foldl (fun m x => max m (x.value.getD 0)) (h.value.getD 0)
      let conc := largest_position / tv
      some { portfolio_beta := pyRound 3 weighted_beta
             weighted_pe := pyRound 2 weighted_pe
             weighted_debt_equity := pyRound 2 weighted_de
             concentration := pyRound 3 conc
             number_of_positions := (h :: t).length
             average_position_size := pyRound 2 (tv / (h :: t).length)
             risk_concentration :=
               if conc > 3/10 then "High" else if conc > 15/100 then "Moderate" else "Low" }

/-! ## `_analyze_portfolio_diversification` and
`_calculate_diversification_score` -/

/-- Insertion-ordered accumulation of `sector_allocation` (a Python
dict keyed by sector). -/
def accumSectorValues (holdings : List Holding) : List (String × ℚ) :=
  holdings.foldl
    (fun acc h =>
      let sector := h.sector.getD "Unknown"
      let value := h.value.getD 0
      if acc.any (fun kv => kv.1 = sector) then
        acc.map (fun kv => if kv.1 = sector then (kv.1, kv.2 + value) else kv)
      else acc ++ [(sector, value)])
    []

/-- Source `_calculate_diversification_score` (1-10). -/
def calcDiversificationScore (num_sectors : ℕ) (largest_allocation : ℚ) : ℤ :=
  let base : ℤ := 5
  let sectorAdj : ℤ :=
    if num_sectors ≥ 8 then 2 else if num_sectors ≥ 5 then 1 else if num_sectors ≤ 2 then -2 else 0
  let concAdj : ℤ :=
    if largest_allocation > 50 then -3
    else if largest_allocation > 30 then -2
    else if largest_allocation > 20 then -1
    else if largest_allocation < 15 then 1
    else 0
  max 1 (min 10 (base + sectorAdj + concAdj))

/-- Source `_get_diversification_level`. -/
def getDiversificationLevel (score : ℤ) : String :=
  if score ≥ 8 then "Excellent"
  else if score ≥ 6 then "Good"
  else if score ≥ 4 then "Fair"
  else "Poor"

/-- Diversification recommendations, modelled as tags for the source's
message strings. -/
inductive DiversRec where
  | reduceSector (sector : String) (allocation : ℚ)
  | addSector (sector : String)
  deriving DecidableEq

def majorSectors : List String :=
  ["Technology", "Healthcare", "Financial Services", "Consumer Discretionary"]

def getDiversRecommendations (sector_percentages : List (String × ℚ)) : List DiversRec :=
  ((sector_percentages.filter (fun kv => kv.2 > 40)).map
      (fun kv => DiversRec.reduceSector kv.1 kv.2)
    ++ (majorSectors.filter
        (fun s => !(sector_percentages.any (fun kv => kv.1 = s)))).map DiversRec.addSector).take 3

structure DiversResult where
  sector_allocation : List (String × ℚ)
  number_of_sectors : ℕ
  largest_sector_allocation : ℚ
  diversification_score : ℤ
  diversification_level : String
  recommendations : List DiversRec
  deriving DecidableEq

/-- Source `_analyze_portfolio_diversification`.  With at least one holding
and zero total value the percentage conversion divides by zero and the
helper degrades to its error dict (`none`). -/
def analyzePortfolioDiversification (holdings : List Holding) : Option DiversResult :=
  let tv := totalValue holdings
  if holdings ≠ [] ∧ tv = 0 then none
  else
    let sector_allocation := accumSectorValues holdings
    let sector_percentages := sector_allocation.map (fun kv => (kv.1, pyRound 2 (kv.2 / tv * 100)))
    let num_sectors := sector_allocation.length
    let largest :=
      match sector_percentages with
      | [] => 0
      | kv :: rest => rest.foldl (fun m x => max m x.2) kv.2
    let score := calcDiversificationScore num_sectors largest
    some { sector_allocation := sector_percentages
           number_of_sectors := num_sectors
           largest_sector_allocation := largest
           diversification_score := score
           diversification_level := getDiversificationLevel score
           recommendations := getDiversRecommendations sector_percentages }

/-! ## `_analyze_portfolio_correlations` and the sector correlation
matrix -/

/-- Row of `_initialize_correlation_matrix` for one sector. -/
def correlationRow (sector : String) : Option (String → Option ℚ) :=
  if sector = "Technology" then some fun s =>
    if s = "Technology" then some 1 else if s = "Healthcare" then some (3/10)
    else if s = "Financial Services" then some (4/10)
    else if s = "Consumer Discretionary" then some (6/10)
    else if s = "Consumer Staples" then some (1/10)
    else if s = "Energy" then some (2/10) else none
  else if sector = "Healthcare" then some fun s =>
    if s = "Technology" then some (3/10) else if s = "Healthcare" then some 1
    else if s = "Financial Services" then some (2/10)
    else if s = "Consumer Discretionary" then some (3/10)
    else if s = "Consumer Staples" then some (4/10)
    else if s = "Energy" then some (1/10) else none
  else if sector = "Financial Services" then some fun s =>
    if s = "Technology" then some (4/10) else if s = "Healthcare" then some (2/10)
    else if s = "Financial Services" then some 1
    else if s = "Consumer Discretionary" then some (5/10)
    else if s = "Consumer Staples" then some (3/10)
    else if s = "Energy" then some (6/10) else none
  else if sector = "Consumer Discretionary" then some fun s =>
    if s = "Technology" then some (6/10) else if s = "Healthcare" then some (3/10)
    else if s = "Financial Services" then some (5/10)
    else if s = "Consumer Discretionary" then some 1
    else if s = "Consumer Staples" then some (4/10)
    else if s = "Energy" then some (3/10) else none
  else if sector = "Consumer Staples" then some fun s =>
    if s = "Technology" then some (1/10) else if s = "Healthcare" then some (4/10)
    else if s = "Financial Services" then some (3/10)
    else if s = "Consumer Discretionary" then some (4/10)
    else if s = "Consumer Staples" then some 1
    else if s = "Energy" then some (2/10) else none
  else if sector = "Energy" then some fun s =>
    if s = "Technology" then some (2/10) else if s = "Healthcare" then some (1/10)
    else if s = "Financial Services" then some (6/10)
    else if s = "Consumer Discretionary" then some (3/10)
    else if s = "Consumer Staples" then some (2/10)
    else if s = "Energy" then some 1 else none
  else none

/-- Source `matrix.get(sector1, {}).get(sector2, 0.3)`. -/
def sectorCorrelation (sector1 sector2 : String) : ℚ :=
  match correlationRow sector1 with
  | none => 3/10
  | some row => (row sector2).getD (3/10)

/-- The nested pair loop of `_analyze_portfolio_correlations`,
accumulating `(total_correlation_risk, pair_count)`. -/
def correlationLoop (tv : ℚ) : List Holding → ℚ × ℕ
  | [] => (0, 0)
  | h :: t =>
    let inner := t.foldl
      (fun acc h2 =>
        acc + sectorCorrelation (h.sector.getD "Unknown") (h2.sector.getD "Unknown")
          * (h.value.getD 0 / tv) * (h2.value.getD 0 / tv))
      0
    let rest := correlationLoop tv t
    (inner + rest.1, t.length + rest.2)

structure CorrResult where
  average_correlation : ℚ
  correlation_risk : String
  deriving DecidableEq

/-- The `correlation_risk` conditional of
`_analyze_portfolio_correlations`. -/
def classifyCorrelation (avg : ℚ) : String :=
  if avg > 6/10 then "High" else if avg > 3/10 then "Moderate" else "Low"

/-- Source `_analyze_portfolio_correlations`.  The weight divisions raise
ZeroDivisionError when the total value is zero and at least one pair is
iterated (two or more holdings); the helper then degrades to its error
dict (`none`). -/
def analyzePortfolioCorrelations (holdings : List Holding) : Option CorrResult :=
  let tv := totalValue holdings
  if tv = 0 ∧ 2 ≤ holdings.length then none
  else
    let res := correlationLoop tv holdings
    let avg := res.1 / (max res.2 1 : ℕ)
    some { average_correlation := pyRound 3 avg
           correlation_risk := classifyCorrelation avg }

/-! ## `_calculate_portfolio_var` -/

structure PortfolioVar where
  portfolio_var_95_1day : ℚ
  portfolio_var_95_1day_percent : ℚ
  portfolio_value : ℚ
  deriving DecidableEq

def calcPortfolioVar (holdings : List Holding) : Option PortfolioVar :=
  let tv := totalValue holdings
  let beta := calcPortfolioBeta holdings
  let daily_var := tv * (16/1000) * beta * (165/100)
  if tv = 0 then none
  else some { portfolio_var_95_1day := pyRound 2 daily_var
              portfolio_var_95_1day_percent := pyRound 2 (daily_var / tv * 100)
              portfolio_value := tv }

/-! ## `_calculate_portfolio_health_score` (1-100) -/

/-- Source `_calculate_portfolio_health_score` after the `dict.get` defaults:
`diversification_score` defaults to 5, `concentration_ratio` to 0.2 and
`portfolio_beta` to 1.0 when the feeding helper degraded. -/
def calcHealthScoreCore (div_score : ℤ) (conc beta : ℚ) : ℤ :=
  let base : ℤ := 60
  let divAdj : ℤ := (div_score - 5) * 3
  let concAdj : ℤ :=
    if conc < 15/100 then 10
    else if conc < 25/100 then 5
    else if conc > 4/10 then -15
    else if conc > 3/10 then -10
    else 0
  let betaAdj : ℤ :=
    if 8/10 ≤ beta ∧ beta ≤ 12/10 then 10
    else if 6/10 ≤ beta ∧ beta ≤ 14/10 then 5
    else -5
  max 1 (min 100 (base + divAdj + concAdj + betaAdj))

def calcPortfolioHealthScore (metrics : Option PortfolioMetrics)
    (diversification : Option DiversResult) : ℤ :=
  calcHealthScoreCore
    ((diversification.map DiversResult.diversification_score).getD 5)
    ((metrics.map PortfolioMetrics.concentration).getD (2/10))
    ((metrics.map PortfolioMetrics.portfolio_beta).getD 1)

/-! ## `_generate_optimization_recommendations` and
`_generate_action_items` (message strings modelled as tags) -/

inductive OptRec where
  | reduceConcentration
  | improveDiversification
  | addDefensivePositions
  | tooConservative
  | rebalanceQuarterly
  | monitorCorrelationChanges
  deriving DecidableEq

def generateOptimizationRecommendations (metrics : Option PortfolioMetrics)
    (diversification : Option DiversResult) : List OptRec :=
  let conc := (metrics.map PortfolioMetrics.concentration).getD 0
  let div_score := (diversification.map DiversResult.diversification_score).getD 5
  let beta := (metrics.map PortfolioMetrics.portfolio_beta).getD 1
  ((if conc > 3/10 then [OptRec.reduceConcentration] else [])
    ++ (if div_score < 5 then [OptRec.improveDiversification] else [])
    ++ (if beta > 13/10 then [OptRec.addDefensivePositions]
        else if beta < 7/10 then [OptRec.tooConservative] else [])
    ++ [OptRec.rebalanceQuarterly, OptRec.monitorCorrelationChanges]).take 5

inductive ActionItem where
  | priorityReduceLargestPosition
  | priorityAddSectors
  | reviewRebalanceQuarterly
  | monitorSectorAllocationsMonthly
  | assessCorrelationChanges
  deriving DecidableEq

def generateActionItems (metrics : Option PortfolioMetrics)
    (diversification : Option DiversResult) : List ActionItem :=
  let conc := (metrics.map PortfolioMetrics.concentration).getD 0
  let div_score := (diversification.map DiversResult.diversification_score).getD 5
  ((if conc > 3/10 then [ActionItem.priorityReduceLargestPosition] else [])
    ++ (if div_score < 4 then [ActionItem.priorityAddSectors] else [])
    ++ [ActionItem.reviewRebalanceQuarterly, ActionItem.monitorSectorAllocationsMonthly,
        ActionItem.assessCorrelationChanges]).take 5

/-! ## `analyze_portfolio` (orchestrator)

Every helper catches its own exceptions and degrades to an error dict
(the `Option` fields below), so the only exception reaching the
orchestrator's `except` is the explicit
`ValueError("Portfolio holdings are required")` raised on an empty
holdings list.  The free-text `ai_insights` field is produced by the
external LLM collaborator and is out of the engine's scope. -/

structure PortfolioAnalysisResult where
  client_id : String
  total_holdings : ℕ
  total_value : ℚ
  health_score : ℤ
  risk_metrics : Option PortfolioMetrics
  diversification : Option DiversResult
  correlation_analysis : Option CorrResult
  var_analysis : Option PortfolioVar
  optimization_recommendations : List OptRec
  action_items : List ActionItem
  deriving DecidableEq

/-- Outcome of a call to `analyze_portfolio`: either the full analysis
dict or the error dict `{client_id, error, message}`. -/
inductive PortfolioOutcome where
  | analysis (a : PortfolioAnalysisResult)
  | failure (client_id : String) (error : String) (message : String)
  deriving DecidableEq

def analyzePortfolioFull (client_id : String) (holdings : List Holding) : PortfolioOutcome :=
  if holdings.isEmpty then
    .failure client_id "Portfolio analysis failed" "Portfolio holdings are required"
  else
    let metrics := calcPortfolioRiskMetrics holdings
    let diversification := analyzePortfolioDiversification holdings
    let correlations := analyzePortfolioCorrelations holdings
    let pvar := calcPortfolioVar holdings
    let health := calcPortfolioHealthScore metrics diversification
    .analysis
      { client_id := client_id
        total_holdings := holdings.length
        total_value := totalValue holdings
        health_score := health
        risk_metrics := metrics
        diversification := diversification
        correlation_analysis := correlations
        var_analysis := pvar
        optimization_recommendations := generateOptimizationRecommendations metrics diversification
        action_items := generateActionItems metrics diversification }

/-- Health score of an outcome, when it is a full analysis. -/
def PortfolioOutcome.healthScore : PortfolioOutcome → Option ℤ
  | .analysis a => some a.health_score
  | .failure _ _ _ => none

/-- Does the outcome carry a full analysis dict? -/
def PortfolioOutcome.isAnalysis : PortfolioOutcome → Bool
  | .analysis _ => true
  | .failure _ _ _ => false

/-! ## `assess_investment_risk` (per-instrument orchestrator)

Structured numeric fields only; the free-text AI analysis attached by
the external LLM collaborator never feeds the numeric outputs
(`_calculate_overall_risk_score` ignores its `ai_analysis` argument). -/

structure RiskAssessmentResult where
  ticker : String
  risk_score : ℤ
  risk_level : String
  quantitative_metrics : QuantMetrics
  qualitative_factors : List QualRisk
  var_analysis : Option VarResult
  suitability_assessment : SuitVerdict
  deriving DecidableEq

/-- Outcome of `assess_investment_risk`: the assessment dict or the
error dict `{ticker, error, message, risk_score: 5, risk_level:
'unknown'}`. -/
inductive RiskOutcome where
  | ok (r : RiskAssessmentResult)
  | failure (ticker : String) (error : String) (message : String)
      (risk_score : ℤ) (risk_level : String)
  deriving DecidableEq

/-- The `try`-block body of `assess_investment_risk` over a
financial-data store modelled as a ticker lookup. -/
def assessInvestmentRiskInner (db : String → Option StockData) (ticker : String)
    (research_risk_factors : List String) (client_risk_profile : String) :
    Except String RiskAssessmentResult :=
  match db ticker with
  | none => .error ("No financial data found for ticker " ++ ticker)
  | some stock_data =>
    let quantitative_risks := calcQuantitativeRisks stock_data
    let qualitative_risks := assessQualitativeRisks research_risk_factors
    let risk_score := calcOverallRiskScore quantitative_risks qualitative_risks
    let risk_level := determineRiskLevel risk_score
    let suitability := assessInvestmentSuitability
      { risk_score := some (.num risk_score) } { risk_tolerance := some client_risk_profile }
    .ok { ticker := upperStr ticker
          risk_score := risk_score
          risk_level := risk_level
          quantitative_metrics := quantitative_risks
          qualitative_factors := qualitative_risks
          var_analysis := calcVarAnalysis (stock_data.latest_price.getD 100)
            quantitative_risks.volatility_indicator
          suitability_assessment := suitability }

def assessInvestmentRisk (db : String → Option StockData) (ticker : String)
    (research_risk_factors : List String) (client_risk_profile : String) : RiskOutcome :=
  match assessInvestmentRiskInner db ticker research_risk_factors client_risk_profile with
  | .ok r => .ok r
  | .error msg => .failure ticker "Risk assessment failed" msg 5 "unknown"

/-! # Theorems for the claims -/

lemma clamp_bounds (lo hi x : ℤ) (h : lo ≤ hi) :
    lo ≤ max lo (min hi x) ∧ max lo (min hi x) ≤ hi :=
  ⟨le_max_left _ _, max_le h (min_le_left _ _)⟩

/-- C10: `_determine_risk_level` is a total partition of the integer
risk scores: at most 3 maps to Low, 4-6 to Moderate, 7-8 to High and
9 or above to Very High, and each score maps to exactly one level. -/
theorem risk_level_partition (risk_score : ℤ) :
    (determineRiskLevel risk_score = "Low" ↔ risk_score ≤ 3)
    ∧ (determineRiskLevel risk_score = "Moderate" ↔ 4 ≤ risk_score ∧ risk_score ≤ 6)
    ∧ (determineRiskLevel risk_score = "High" ↔ 7 ≤ risk_score ∧ risk_score ≤ 8)
    ∧ (determineRiskLevel risk_score = "Very High" ↔ 9 ≤ risk_score) := by
  unfold determineRiskLevel
  split_ifs with h1 h2 h3 <;> refine ⟨?_, ?_, ?_, ?_⟩ <;> simp <;> omega

/-- C6: every score-producing operation clamps: the per-instrument
risk score of `_calculate_overall_risk_score` lies in [1,10], the
diversification score of `_calculate_diversification_score` lies in
[1,10], and the portfolio health score of
`_calculate_portfolio_health_score` lies in [1,100], for all inputs. -/
theorem scores_within_clamped_ranges :
    (∀ (q : QuantMetrics) (l : List QualRisk),
        1 ≤ calcOverallRiskScore q l ∧ calcOverallRiskScore q l ≤ 10)
    ∧ (∀ (n : ℕ) (a : ℚ),
        1 ≤ calcDiversificationScore n a ∧ calcDiversificationScore n a ≤ 10)
    ∧ (∀ (m : Option PortfolioMetrics) (d : Option DiversResult),
        1 ≤ calcPortfolioHealthScore m d ∧ calcPortfolioHealthScore m d ≤ 100) := by
  refine ⟨fun q l => ?_, fun n a => ?_, fun m d => ?_⟩
  · exact clamp_bounds 1 10 _ (by norm_num)
  · exact clamp_bounds 1 10 _ (by norm_num)
  · exact clamp_bounds 1 100 _ (by norm_num)

/-- C9: `assess_investment_risk` never lets an exception reach its
caller; when the financial data store has no record for the ticker the
`except` branch returns the error dict with `risk_score = 5` and
`risk_level = 'unknown'`. -/
theorem assess_investment_risk_missing_ticker_error
    (db : String → Option StockData) (ticker : String)
    (research_risk_factors : List String) (client_risk_profile : String)
    (h : db ticker = none) :
    assessInvestmentRisk db ticker research_risk_factors client_risk_profile =
      .failure ticker "Risk assessment failed"
        ("No financial data found for ticker " ++ ticker) 5 "unknown" := by
  unfold assessInvestmentRisk assessInvestmentRiskInner
  rw [h]

/-- Witness for C9 at a concrete empty data store. -/
theorem assess_investment_risk_missing_ticker_error_witness :
    ((fun _ => none : String → Option StockData) "AAPL" = none)
    ∧ assessInvestmentRisk (fun _ => none) "AAPL" [] "moderate" =
        .failure "AAPL" "Risk assessment failed"
          ("No financial data found for ticker " ++ "AAPL") 5 "unknown" :=
  ⟨rfl, assess_investment_risk_missing_ticker_error (fun _ => none) "AAPL" [] "moderate" rfl⟩

/-- C5: `_assess_investment_suitability` is total (it returns a
verdict for every input by construction); whenever its `try`-body
faults the returned verdict is unsuitable and carries the explicit
manual-review warning, and a numeric risk score never faults even for
an unrecognized risk-tolerance tier (the tier lookup defaults to 5). -/
theorem suitability_faults_to_manual_review :
    (∀ (inv : InvestmentData) (profile : ClientProfile) (e : String),
        assessSuitInner inv profile = .error e →
        (assessInvestmentSuitability inv profile).suitable = false
        ∧ "Suitability assessment failed - manual review required"
            ∈ (assessInvestmentSuitability inv profile).warnings)
    ∧ (∀ (rs : ℚ) (l c : Bool) (tier : String), ∃ v,
        assessSuitInner
          { risk_score := some (.num rs), liquidity_risk := l, complexity_high := c }
          { risk_tolerance := some tier } = .ok v) := by
  constructor
  · intro inv profile e h
    unfold assessInvestmentSuitability
    rw [h]
    exact ⟨rfl, by simp [manualReviewVerdict]⟩
  · intro rs l c tier
    exact ⟨_, rfl⟩

/-- Witness for C5: a malformed (string-valued) risk score faults the
try-body and yields the manual-review verdict. -/
theorem suitability_faults_to_manual_review_witness :
    assessSuitInner { risk_score := some (.str "high") } { risk_tolerance := some "conservative" }
        = .error "TypeError: not supported between str and number"
    ∧ (assessInvestmentSuitability { risk_score := some (.str "high") }
        { risk_tolerance := some "conservative" }).suitable = false
    ∧ "Suitability assessment failed - manual review required"
        ∈ (assessInvestmentSuitability { risk_score := some (.str "high") }
            { risk_tolerance := some "conservative" }).warnings :=
  ⟨rfl,
   (suitability_faults_to_manual_review.1 { risk_score := some (.str "high") }
     { risk_tolerance := some "conservative" }
     "TypeError: not supported between str and number" rfl).1,
   (suitability_faults_to_manual_review.1 { risk_score := some (.str "high") }
     { risk_tolerance := some "conservative" }
     "TypeError: not supported between str and number" rfl).2⟩

/-- C2 counterexample: the claim asserts a conservative client finds
an investment suitable exactly when `risk_score ≤ max_risk_score + 1 =
5`, yet the single-investment evaluator already returns
`suitable = false` at `risk_score = 5`. -/
theorem conservative_risk_five_unsuitable :
    ((5 : ℚ) ≤ 4 + 1)
    ∧ (assessInvestmentSuitability { risk_score := some (.num 5) }
        { risk_tolerance := some "conservative" }).suitable = false := by
  refine ⟨by norm_num, ?_⟩
  norm_num [assessInvestmentSuitability, assessSuitInner, riskToleranceMap]

/-- C2 amended: the single-investment evaluator maps `conservative` to
numeric tolerance 3 and allows +1 slack, so the verdict is suitable
exactly when `risk_score ≤ 4`; the compliance-tier check uses
`max_risk_score = 4` with no slack, the same boundary.  In particular
`risk_score = 6` is unsuitable. -/
theorem conservative_single_investment_boundary (rs : ℚ) (l c : Bool) :
    ((assessInvestmentSuitability
        { risk_score := some (.num rs), liquidity_risk := l, complexity_high := c }
        { risk_tolerance := some "conservative" }).suitable = decide (rs ≤ 4))
    ∧ performRiskScoreCheck "conservative" (some rs) = some (decide (rs ≤ 4)) := by
  constructor
  · show (assessInvestmentSuitability _ _).suitable = _
    norm_num [assessInvestmentSuitability, assessSuitInner, riskToleranceMap]
  · norm_num [performRiskScoreCheck, suitabilityRules]

/-- C4: `_determine_overall_suitability` equals the conjunction of the
suitability and concentration checks alone; documentation completeness
(always incomplete, since client acknowledgment is collected
separately) never changes the boolean verdict. -/
theorem overall_suitability_ignores_documentation
    (s c : List CheckVal) (a b a2 b2 : Bool) :
    determineOverallSuitability s c (verifyDocumentationRequirements a b)
        = (s.all checkPassed && c.all checkPassed)
    ∧ (verifyDocumentationRequirements a b).all_required_present = false
    ∧ determineOverallSuitability s c (verifyDocumentationRequirements a b)
        = determineOverallSuitability s c (verifyDocumentationRequirements a2 b2) := by
  refine ⟨rfl, ?_, rfl⟩
  cases a <;> cases b <;> rfl

/-- C7: the reported 1-day 95% VaR is `round(price × 0.016 ×
volatility × 1.65, 2)` (for any instrument with a nonzero current
price, which the data-store contract of the spec guarantees: unknown
numeric fields arrive absent, not 0); the 10-day VaR is the 1-day
value times `sqrt 10`; and the Technology scenario with beta = 1.2 and
price = 100 yields `volatility_indicator = 1.56` and
`var_95_1day = 4.12`. -/
theorem var_95_formulas :
    (∀ price volatility : ℚ, price ≠ 0 →
        (calcVarAnalysis price volatility).map VarResult.var_95_1_day
          = some (pyRound 2 (price * (16/1000) * volatility * (165/100))))
    ∧ (∀ price volatility : ℚ,
        var95_10day_raw price volatility
          = (var95_1day_raw price volatility : ℝ) * Real.sqrt 10)
    ∧ calcVolatilityIndicator { beta := some (6/5), sector := some "Technology" } = 39/25
    ∧ (calcVarAnalysis 100 (39/25)).map VarResult.var_95_1_day = some (103/25) := by
  refine ⟨fun price volatility hp => ?_, fun price volatility => rfl, ?_, ?_⟩
  · simp [calcVarAnalysis, hp, var95_1day_raw]
  · have h : findSectorMultiplier (lowerStr "Technology") = 13/10 := rfl
    norm_num [calcVolatilityIndicator, h, pyRound, pyRoundInt]
  · norm_num [calcVarAnalysis, var95_1day_raw, pyRound, pyRoundInt]

/-- Witness for C7 at price 100, volatility 1. -/
theorem var_95_formulas_witness :
    ((100 : ℚ) ≠ 0)
    ∧ (calcVarAnalysis 100 1).map VarResult.var_95_1_day
        = some (pyRound 2 (100 * (16/1000) * 1 * (165/100))) :=
  ⟨by norm_num, var_95_formulas.1 100 1 (by norm_num)⟩

/-- C8 counterexample: the value the caller receives is rounded to two
decimals, so strictly increasing the volatility indicator does not
strictly increase the returned `var_95_1_day`: at price 100 the
volatilities 1 and 1 + 10⁻⁶ are reported with the same VaR. -/
theorem var_reported_not_strictly_monotone :
    ((1 : ℚ) < 1 + 1/1000000)
    ∧ (calcVarAnalysis 100 1).map VarResult.var_95_1_day
        = (calcVarAnalysis 100 (1 + 1/1000000)).map VarResult.var_95_1_day := by
  refine ⟨by norm_num, ?_⟩
  norm_num [calcVarAnalysis, var95_1day_raw, pyRound, pyRoundInt]

/-- C8 amended: for a fixed positive price the unrounded 1-day VaR is
strictly increasing in the volatility indicator, and the reported
(2-decimal-rounded) value is monotone non-decreasing; strictness can
be lost only to rounding, as the counterexample shows. -/
theorem var_raw_strictly_monotone_in_volatility
    (price v1 v2 : ℚ) (hp : 0 < price) (h : v1 < v2) :
    var95_1day_raw price v1 < var95_1day_raw price v2
    ∧ pyRound 2 (var95_1day_raw price v1) ≤ pyRound 2 (var95_1day_raw price v2) := by
  have hlt : var95_1day_raw price v1 < var95_1day_raw price v2 := by
    unfold var95_1day_raw
    nlinarith
  exact ⟨hlt, pyRound_mono 2 hlt.le⟩

/-- Witness for the amended C8 at price 100, volatilities 1 < 2. -/
theorem var_raw_strictly_monotone_witness :
    ((0 : ℚ) < 100) ∧ ((1 : ℚ) < 2)
    ∧ (var95_1day_raw 100 1 < var95_1day_raw 100 2
       ∧ pyRound 2 (var95_1day_raw 100 1) ≤ pyRound 2 (var95_1day_raw 100 2)) :=
  ⟨by norm_num, by norm_num,
   var_raw_strictly_monotone_in_volatility 100 1 2 (by norm_num) (by norm_num)⟩

/-! ## C3: the correlation value versus the spec's pairwise sum -/

/-- All unordered pairs (i < j) of a holdings list, in the iteration
order of the nested loop. -/
def unorderedPairs : List Holding → List (Holding × Holding)
  | [] => []
  | h :: t => (t.map fun h2 => (h, h2)) ++ unorderedPairs t

/-- Contribution of one unordered pair:
`correlation(sector_i, sector_j) × weight_i × weight_j`. -/
def pairContribution (tv : ℚ) (p : Holding × Holding) : ℚ :=
  sectorCorrelation (p.1.sector.getD "Unknown") (p.2.sector.getD "Unknown")
    * (p.1.value.getD 0 / tv) * (p.2.value.getD 0 / tv)

/-- Modelled from the spec's words (claim C3): the portfolio
correlation as the plain sum over all unordered pairs of
`correlation(sector_i, sector_j) × weight_i × weight_j` with weights
the value shares of total portfolio value. -/
def specPairwiseCorrelationSum (holdings : List Holding) : ℚ :=
  ((unorderedPairs holdings).map (pairContribution (totalValue holdings))).sum

lemma foldl_add_map_sum (f : Holding → ℚ) (l : List Holding) (a : ℚ) :
    l.foldl (fun acc x => acc + f x) a = a + (l.map f).sum := by
  induction l generalizing a with
  | nil => simp
  | cons x xs ih => simp [ih]; ring

lemma correlationLoop_eq (tv : ℚ) (hs : List Holding) :
    correlationLoop tv hs
      = (((unorderedPairs hs).map (pairContribution tv)).sum, (unorderedPairs hs).length) := by
  induction hs with
  | nil => simp [correlationLoop, unorderedPairs]
  | cons h t ih =>
    simp only [correlationLoop, unorderedPairs, ih, List.map_append, List.sum_append,
      List.length_append, List.map_map, List.length_map]
    rw [Prod.mk.injEq]
    have hfold : List.foldl
        (fun acc h2 => acc + sectorCorrelation (h.sector.getD "Unknown") (h2.sector.getD "Unknown")
          * (h.value.getD 0 / tv) * (h2.value.getD 0 / tv)) 0 t
        = (List.map (fun h2 => pairContribution tv (h, h2)) t).sum := by
      simpa using foldl_add_map_sum (fun h2 => pairContribution tv (h, h2)) t 0
    rw [hfold]
    exact ⟨rfl, rfl⟩

/-- A holding used by the C3 counterexample. -/
def techHolding : Holding := { value := some 100, sector := some "Technology" }

/-- C3 counterexample: for three equal Technology holdings the spec's
pairwise sum is 1/3 (which the claim classifies Moderate), but the
code divides the sum by the pair count and reports 1/9 ≈ 0.111,
classified Low. -/
theorem portfolio_correlation_not_pairwise_sum :
    specPairwiseCorrelationSum [techHolding, techHolding, techHolding] = 1/3
    ∧ ((1 : ℚ)/3 > 3/10)
    ∧ (analyzePortfolioCorrelations [techHolding, techHolding, techHolding]).map
        CorrResult.average_correlation = some (111/1000)
    ∧ (analyzePortfolioCorrelations [techHolding, techHolding, techHolding]).map
        CorrResult.correlation_risk = some "Low"
    ∧ (analyzePortfolioCorrelations [techHolding, techHolding, techHolding]).map
        CorrResult.average_correlation
        ≠ some (specPairwiseCorrelationSum [techHolding, techHolding, techHolding]) := by
  have hsum : specPairwiseCorrelationSum [techHolding, techHolding, techHolding] = 1/3 := by
    norm_num [specPairwiseCorrelationSum, unorderedPairs, pairContribution, totalValue,
      techHolding, sectorCorrelation, correlationRow]
  have hcode : analyzePortfolioCorrelations [techHolding, techHolding, techHolding]
      = some { average_correlation := 111/1000, correlation_risk := "Low" } := by
    norm_num [analyzePortfolioCorrelations, correlationLoop, totalValue, techHolding,
      sectorCorrelation, correlationRow, classifyCorrelation, pyRound, pyRoundInt]
  refine ⟨hsum, by norm_num, ?_, ?_, ?_⟩
  · rw [hcode]
    rfl
  · rw [hcode]
    rfl
  · rw [hcode, hsum]
    simp only [Option.map_some']
    norm_num

/-- C3 amended: for every holdings list with nonzero total value the
reported correlation is the spec's pairwise weighted sum divided by
the number of unordered pairs (i.e. the mean pair contribution, not
the sum), rounded to 3 decimals, and the High/Moderate/Low thresholds
0.6/0.3 are applied to that average. -/
theorem portfolio_correlation_average_of_pairwise_sum
    (holdings : List Holding) (htv : totalValue holdings ≠ 0) :
    analyzePortfolioCorrelations holdings
      = some { average_correlation :=
                 pyRound 3 (specPairwiseCorrelationSum holdings
                   / (max (unorderedPairs holdings).length 1 : ℕ))
               correlation_risk :=
                 classifyCorrelation (specPairwiseCorrelationSum holdings
                   / (max (unorderedPairs holdings).length 1 : ℕ)) } := by
  simp only [analyzePortfolioCorrelations, correlationLoop_eq, htv, false_and, if_false]
  rfl

/-- Witness for the amended C3 on a concrete two-sector portfolio. -/
theorem portfolio_correlation_average_witness :
    totalValue [techHolding, { value := some 300, sector := some "Energy" }] ≠ 0
    ∧ analyzePortfolioCorrelations [techHolding, { value := some 300, sector := some "Energy" }]
      = some { average_correlation :=
                 pyRound 3 (specPairwiseCorrelationSum
                     [techHolding, { value := some 300, sector := some "Energy" }]
                   / (max (unorderedPairs
                     [techHolding, { value := some 300, sector := some "Energy" }]).length 1 : ℕ))
               correlation_risk :=
                 classifyCorrelation (specPairwiseCorrelationSum
                     [techHolding, { value := some 300, sector := some "Energy" }]
                   / (max (unorderedPairs
                     [techHolding, { value := some 300, sector := some "Energy" }]).length 1 : ℕ)) } :=
  ⟨by norm_num [totalValue, techHolding],
   portfolio_correlation_average_of_pairwise_sum _ (by norm_num [totalValue, techHolding])⟩

/-! ## C1: rejection behaviour of `analyze_portfolio` -/

/-- A single holding whose position value is zero: total portfolio
value is zero while the holdings list is non-empty. -/
def zeroValueHolding : Holding := { value := some 0, sector := some "Technology" }

/-- C1: an empty holdings list is rejected as a failed request, but a
non-empty portfolio whose total value is zero is NOT rejected: the
`ValueError("Portfolio has no value")` raised inside
`_calculate_portfolio_risk_metrics` is swallowed by that helper's own
`except`, every other helper degrades likewise, and the orchestrator
returns a full analysis dict with a silently-defaulted health score of
75 and stock action items — contradicting both the spec and the
code's own raised validation error. -/
theorem portfolio_zero_total_value_not_rejected :
    analyzePortfolioFull "client-1" []
        = .failure "client-1" "Portfolio analysis failed" "Portfolio holdings are required"
    ∧ analyzePortfolioFull "client-1" [zeroValueHolding]
        = .analysis
          { client_id := "client-1"
            total_holdings := 1
            total_value := 0
            health_score := 75
            risk_metrics := none
            diversification := none
            correlation_analysis := some { average_correlation := 0, correlation_risk := "Low" }
            var_analysis := none
            optimization_recommendations := [.rebalanceQuarterly, .monitorCorrelationChanges]
            action_items := [.reviewRebalanceQuarterly, .monitorSectorAllocationsMonthly,
              .assessCorrelationChanges] }
    ∧ (analyzePortfolioFull "client-1" [zeroValueHolding]).isAnalysis = true
    ∧ (analyzePortfolioFull "client-1" [zeroValueHolding]).healthScore = some 75 := by
  have hfull : analyzePortfolioFull "client-1" [zeroValueHolding]
      = .analysis
        { client_id := "client-1"
          total_holdings := 1
          total_value := 0
          health_score := 75
          risk_metrics := none
          diversification := none
          correlation_analysis := some { average_correlation := 0, correlation_risk := "Low" }
          var_analysis := none
          optimization_recommendations := [.rebalanceQuarterly, .monitorCorrelationChanges]
          action_items := [.reviewRebalanceQuarterly, .monitorSectorAllocationsMonthly,
            .assessCorrelationChanges] } := by
    norm_num [analyzePortfolioFull, zeroValueHolding, totalValue, calcPortfolioRiskMetrics,
      analyzePortfolioDiversification, analyzePortfolioCorrelations, correlationLoop,
      calcPortfolioVar, calcPortfolioBeta, calcPortfolioHealthScore, calcHealthScoreCore,
      generateOptimizationRecommendations, generateActionItems, classifyCorrelation,
      pyRound, pyRoundInt]
  refine ⟨rfl, hfull, ?_, ?_⟩
  · rw [hfull]
    rfl
  · rw [hfull]
    rfl
